import Mathlib

/-!
Shallow embedding of the `consumables_client` library.

The library mediates between a platform purchase adapter (RevenueCat) and a
backend credit-ledger API.  The embedding models:

* the data model of `src/types/index.ts` and `src/types/adapter.ts`;
* the response handling of `src/network/ConsumablesApiClient.ts` (the
  `{data, error?}` envelope and snake_case → camelCase mapping);
* the `ConsumablesService` orchestration class of `src/core/service.ts` as a
  state-transition system.  JavaScript runs async methods on a single thread,
  so an `async` method is split into its synchronous prefix (everything up to
  the first `await` of the underlying fetch — a `...Start` function) and the
  continuation that runs when the fetch settles (a `...Complete` function).
  Promise object identity is modelled by a `Nat` tag drawn from a counter in
  the state; "concurrent" callers are the callers whose synchronous prefixes
  run before the fetch settles.  Each `...Start` function also reports how
  many underlying fetches that particular call started;
* the module-level singleton of `src/core/singleton.ts`, with listener
  callbacks identified by `Nat` tokens and the effect of each operation
  (adapter calls, cache clears, listeners fired) reported explicitly;
* the React Native adapter's `getOfferings` capability from
  `src/adapters/revenuecat-rn.ts` (its try/catch and catalog mapping).

Numbers crossing the wire are JavaScript numbers; the values handled here are
integers (credit counts, cents, status codes) except for the decimal
major-unit `price`, modelled as `ℚ`.
-/

/-- A purchasable credit package (`CreditPackage` in `src/types/index.ts`). -/
structure CreditPackage where
  packageId : String
  productId : String
  title : String
  description : Option String
  credits : Int
  price : ℚ
  priceString : String
  currencyCode : String
deriving Repr, DecidableEq

/-- An offering containing credit packages (`CreditOffering`). -/
structure CreditOffering where
  offeringId : String
  packages : List CreditPackage
deriving Repr, DecidableEq

/-- Balance info from the API (`CreditBalance`). -/
structure CreditBalance where
  balance : Int
  initialCredits : Int
deriving Repr, DecidableEq

/-- Platform purchase result (`ConsumablePurchaseResult` in `adapter.ts`);
`source` is one of "web", "apple", "google". -/
structure ConsumablePurchaseResult where
  transactionId : String
  productId : String
  credits : Int
  priceCents : Int
  currency : String
  source : String
deriving Repr, DecidableEq

/-- Purchase parameters (`ConsumablePurchaseParams` in `adapter.ts`). -/
structure ConsumablePurchaseParams where
  packageId : String
  offeringId : String
deriving Repr, DecidableEq

/-- JavaScript `x || d` on an optional string: `undefined`, `null` and the
empty string are all falsy, so they yield the default `d`. -/
def jsStrOr (x : Option String) (d : String) : String :=
  match x with
  | some s => if s = "" then d else s
  | none => d

/-- JavaScript `x || null` on an optional string: an empty string collapses
to `null` (absent). -/
def jsStrOrNull (x : Option String) : Option String :=
  match x with
  | some s => if s = "" then none else some s
  | none => none

namespace ConsumablesApiClient

/-- The `{data, error?}` envelope every backend response is wrapped in
(`ApiResponse<T>` in `ConsumablesApiClient.ts`). -/
structure ApiResponse (T : Type) where
  data : T
  error : Option String
deriving Repr, DecidableEq

/-- The transport-level response the `NetworkClient` hands back: HTTP success
flag, status code, and the parsed body.  `data = none` models an absent or
unparsable (falsy) `response.data`. -/
structure NetworkResponse (T : Type) where
  ok : Bool
  status : Int
  data : Option (ApiResponse T)
deriving Repr, DecidableEq

/-- Shared response handling of the private `get`/`post` helpers: when the
response is not ok or the body is absent, throw an error carrying
`response.data?.error || "Request failed: <status>"`; otherwise return the
inner `data.data` payload. -/
def unwrap {T : Type} (response : NetworkResponse T) : Except String T :=
  match response.data with
  | none => Except.error ("Request failed: " ++ toString response.status)
  | some w =>
    if response.ok then Except.ok w.data
    else Except.error (jsStrOr w.error ("Request failed: " ++ toString response.status))

/-- Wire shape of the `/balance` and `/purchase` responses. -/
structure BalanceWire where
  balance : Int
  initial_credits : Int
deriving Repr, DecidableEq

/-- Wire shape of the `/use` response (returned to the caller verbatim). -/
structure UsageWire where
  balance : Int
  success : Bool
deriving Repr, DecidableEq

/-- Request body of `recordPurchase`. -/
structure RecordPurchaseParams where
  credits : Int
  source : String
  transaction_ref_id : Option String
  product_id : Option String
  price_cents : Option Int
  currency : Option String
deriving Repr, DecidableEq

/-- `getBalance()`: unwrap the `/balance` response and map
`{balance, initial_credits}` to `{balance, initialCredits}`. -/
def getBalance (resp : NetworkResponse BalanceWire) : Except String CreditBalance :=
  (unwrap resp).map fun d => { balance := d.balance, initialCredits := d.initial_credits }

/-- `recordPurchase(params)`: unwrap the `/purchase` response and map
`{balance, initial_credits}` to `{balance, initialCredits}`. -/
def recordPurchase (resp : NetworkResponse BalanceWire) : Except String CreditBalance :=
  (unwrap resp).map fun d => { balance := d.balance, initialCredits := d.initial_credits }

/-- `recordUsage(filename?)`: unwrap the `/use` response; the
`{balance, success}` payload is returned as-is. -/
def recordUsage (resp : NetworkResponse UsageWire) : Except String UsageWire :=
  unwrap resp

end ConsumablesApiClient

namespace ConsumablesService

/-- JavaScript `Map.set` / object key assignment on a string-keyed map kept in
insertion order: replace the value in place when the key exists, append
otherwise. -/
def mapSet {α : Type} : List (String × α) → String → α → List (String × α)
  | [], k, v => [(k, v)]
  | (k', v') :: rest, k, v =>
    if k' = k then (k, v) :: rest else (k', v') :: mapSet rest k v

/-- JavaScript `Map.get` (first entry with the key). -/
def mapGet {α : Type} : List (String × α) → String → Option α
  | [], _ => none
  | (k', v') :: rest, k => if k' = k then some v' else mapGet rest k

/-- One offering as the adapter's `getOfferings` reports it: `identifier`,
opaque `metadata` record (or null), and mapped packages. -/
structure AdapterOffering where
  identifier : String
  metadata : Option (List (String × String))
  packages : List CreditPackage
deriving Repr, DecidableEq

/-- The adapter's `getOfferings` result `{ all: Record<string, offering> }`,
with the record as an insertion-ordered association list. -/
structure OfferingsResult where
  all : List (String × AdapterOffering)
deriving Repr, DecidableEq

/-- The private state of a `ConsumablesService` instance.  The two
`...Promise` fields hold the tag of the in-flight load promise, when one
exists; `nextPromiseId` is the model's supply of fresh promise tags. -/
structure State where
  balanceCache : Option CreditBalance
  offeringsCache : List (String × CreditOffering)
  loadOfferingsPromise : Option Nat
  loadBalancePromise : Option Nat
  nextPromiseId : Nat
deriving Repr, DecidableEq

/-- A freshly constructed service: both caches empty, no load in flight. -/
def new : State :=
  { balanceCache := none, offeringsCache := [], loadOfferingsPromise := none,
    loadBalancePromise := none, nextPromiseId := 0 }

/-- What one `loadOfferings()` caller gets back: an immediate return on a
warm cache, or a (possibly shared) pending promise. -/
inductive LoadOfferingsCall where
  | cacheHit
  | promise (id : Nat)
deriving Repr, DecidableEq

/-- Synchronous prefix of `loadOfferings()`: return immediately when the
offerings cache is non-empty; join the in-flight promise when one exists;
otherwise install a fresh promise and start the single adapter
`getOfferings` fetch.  The `Nat` component counts the fetches this call
started (0 or 1). -/
def loadOfferingsStart (s : State) : State × LoadOfferingsCall × Nat :=
  if s.offeringsCache.length > 0 then (s, LoadOfferingsCall.cacheHit, 0)
  else
    match s.loadOfferingsPromise with
    | some p => (s, LoadOfferingsCall.promise p, 0)
    | none =>
      ({ s with loadOfferingsPromise := some s.nextPromiseId,
                nextPromiseId := s.nextPromiseId + 1 },
       LoadOfferingsCall.promise s.nextPromiseId, 1)

/-- Continuation of `loadOfferings()` when the adapter fetch settles: on
success, write every returned offering into the cache; in both cases the
`finally` block clears the in-flight promise.  The second component is the
outcome delivered to every caller awaiting the promise. -/
def loadOfferingsComplete (s : State) (fetchResult : Except String OfferingsResult) :
    State × Except String Unit :=
  match fetchResult with
  | Except.ok result =>
    ({ s with
        offeringsCache := result.all.foldl
          (fun cache kv =>
            mapSet cache kv.1 { offeringId := kv.2.identifier, packages := kv.2.packages })
          s.offeringsCache,
        loadOfferingsPromise := none },
     Except.ok ())
  | Except.error e => ({ s with loadOfferingsPromise := none }, Except.error e)

/-- The synchronous prefixes of `n` concurrent `loadOfferings()` calls, run
back to back on the single JavaScript thread before the fetch settles.
Returns the final state, what each caller got, and the total number of
adapter fetches started. -/
def loadOfferingsStartN (s : State) : Nat → State × List LoadOfferingsCall × Nat
  | 0 => (s, [], 0)
  | n + 1 =>
    let r₁ := loadOfferingsStart s
    let rs := loadOfferingsStartN r₁.1 n
    (rs.1, r₁.2.1 :: rs.2.1, r₁.2.2 + rs.2.2)

/-- What one `loadBalance()` caller gets back: the cached balance, or a
(possibly shared) pending promise. -/
inductive LoadBalanceCall where
  | cached (b : CreditBalance)
  | promise (id : Nat)
deriving Repr, DecidableEq

/-- Synchronous prefix of `loadBalance()`: return the cached balance when
populated; join the in-flight promise when one exists; otherwise install a
fresh promise and start the single backend `getBalance` fetch.  The `Nat`
component counts the fetches this call started (0 or 1). -/
def loadBalanceStart (s : State) : State × LoadBalanceCall × Nat :=
  match s.balanceCache with
  | some b => (s, LoadBalanceCall.cached b, 0)
  | none =>
    match s.loadBalancePromise with
    | some p => (s, LoadBalanceCall.promise p, 0)
    | none =>
      ({ s with loadBalancePromise := some s.nextPromiseId,
                nextPromiseId := s.nextPromiseId + 1 },
       LoadBalanceCall.promise s.nextPromiseId, 1)

/-- Continuation of `loadBalance()` when the backend fetch settles: on
success, cache the balance and resolve the promise with it; on failure the
promise rejects; the `finally` block clears the in-flight promise either
way.  The second component is the outcome delivered to every caller awaiting
the promise. -/
def loadBalanceComplete (s : State) (fetchResult : Except String CreditBalance) :
    State × Except String CreditBalance :=
  match fetchResult with
  | Except.ok b =>
    ({ s with balanceCache := some b, loadBalancePromise := none }, Except.ok b)
  | Except.error e => ({ s with loadBalancePromise := none }, Except.error e)

/-- The synchronous prefixes of `n` concurrent `loadBalance()` calls. -/
def loadBalanceStartN (s : State) : Nat → State × List LoadBalanceCall × Nat
  | 0 => (s, [], 0)
  | n + 1 =>
    let r₁ := loadBalanceStart s
    let rs := loadBalanceStartN r₁.1 n
    (rs.1, r₁.2.1 :: rs.2.1, r₁.2.2 + rs.2.2)

/-- `getOffering(offeringId)`: pure cache lookup. -/
def getOffering (s : State) (offeringId : String) : Option CreditOffering :=
  mapGet s.offeringsCache offeringId

/-- `getOfferingIds()`: the cached offering identifiers. -/
def getOfferingIds (s : State) : List String :=
  s.offeringsCache.map Prod.fst

/-- `getCachedBalance()`: pure cache lookup. -/
def getCachedBalance (s : State) : Option CreditBalance :=
  s.balanceCache

/-- `clearCache()`: drop the balance cache, preserve the offerings cache. -/
def clearCache (s : State) : State :=
  { s with balanceCache := none }

/-- `hasLoadedOfferings()`: whether the offerings cache is non-empty. -/
def hasLoadedOfferings (s : State) : Bool :=
  decide (0 < s.offeringsCache.length)

/-- `hasLoadedBalance()`: whether the balance cache is populated. -/
def hasLoadedBalance (s : State) : Bool :=
  s.balanceCache.isSome

/-- The request body `purchase()` sends to `recordPurchase`, built from the
adapter's purchase result. -/
def purchaseRecordParams (purchaseResult : ConsumablePurchaseResult) :
    ConsumablesApiClient.RecordPurchaseParams :=
  { credits := purchaseResult.credits
    source := purchaseResult.source
    transaction_ref_id := some purchaseResult.transactionId
    product_id := some purchaseResult.productId
    price_cents := some purchaseResult.priceCents
    currency := some purchaseResult.currency }

/-- `purchase(params)`: call the adapter's purchase capability; on success
record the purchase on the backend (the backend is modelled as a function
from the request body to the wire response); on backend success overwrite
the balance cache with the mapped response and return it.  Errors at either
step propagate and leave the state untouched. -/
def purchase (s : State)
    (adapterPurchase : ConsumablePurchaseParams → Except String ConsumablePurchaseResult)
    (backendPurchase : ConsumablesApiClient.RecordPurchaseParams →
      ConsumablesApiClient.NetworkResponse ConsumablesApiClient.BalanceWire)
    (params : ConsumablePurchaseParams) : State × Except String CreditBalance :=
  match adapterPurchase params with
  | Except.error e => (s, Except.error e)
  | Except.ok purchaseResult =>
    match ConsumablesApiClient.recordPurchase (backendPurchase (purchaseRecordParams purchaseResult)) with
    | Except.error e => (s, Except.error e)
    | Except.ok balance => ({ s with balanceCache := some balance }, Except.ok balance)

/-- `recordUsage(filename?)`: forward to the backend (its settled outcome is
`backendResult`); on success overwrite only the `balance` field of the
cached balance when a cache exists, and return the backend response
verbatim.  A backend failure propagates and leaves the state untouched. -/
def recordUsage (s : State) (backendResult : Except String ConsumablesApiClient.UsageWire) :
    State × Except String ConsumablesApiClient.UsageWire :=
  match backendResult with
  | Except.error e => (s, Except.error e)
  | Except.ok result =>
    (match s.balanceCache with
     | some b => { s with balanceCache := some { b with balance := result.balance } }
     | none => s,
     Except.ok result)

end ConsumablesService

namespace RNAdapter

/-- Product metadata as the RN adapter reads it: `credits` is `some c`
exactly when `typeof metadata.credits === "number"`. -/
structure RawProductMetadata where
  credits : Option Int
deriving Repr, DecidableEq

/-- A RevenueCat product as reported by `react-native-purchases`; every
field may be missing. -/
structure RawProduct where
  identifier : Option String
  title : Option String
  description : Option String
  price : Option ℚ
  priceString : Option String
  currencyCode : Option String
  metadata : Option RawProductMetadata
deriving Repr, DecidableEq

/-- A RevenueCat package: its identifier and an optional product. -/
structure RawPackage where
  identifier : String
  product : Option RawProduct
deriving Repr, DecidableEq

/-- A RevenueCat offering as the SDK reports it. -/
structure RawOffering where
  identifier : String
  metadata : Option (List (String × String))
  availablePackages : List RawPackage
deriving Repr, DecidableEq

/-- The SDK's `getOfferings()` payload; `all` is `Object.values(offerings.all)`
in iteration order. -/
structure RawOfferings where
  all : List RawOffering
deriving Repr, DecidableEq

/-- Mapping of one SDK package to a `CreditPackage`, with the JavaScript
`||` defaults of `createConsumablesRNAdapter`. -/
def mapRNPackage (pkg : RawPackage) : CreditPackage :=
  let metadata := pkg.product.bind RawProduct.metadata
  let credits : Int :=
    match metadata with
    | some m => m.credits.getD 0
    | none => 0
  { packageId := pkg.identifier
    productId := jsStrOr (pkg.product.bind RawProduct.identifier) ""
    title := jsStrOr (pkg.product.bind RawProduct.title) ""
    description := jsStrOrNull (pkg.product.bind RawProduct.description)
    credits := credits
    price := (pkg.product.bind RawProduct.price).getD 0
    priceString := jsStrOr (pkg.product.bind RawProduct.priceString) "$0"
    currencyCode := jsStrOr (pkg.product.bind RawProduct.currencyCode) "USD" }

/-- The RN adapter's `getOfferings` capability: the whole body is wrapped in
try/catch, so any SDK failure (`sdkResult = error`) is caught, logged, and
converted to the empty catalog `{ all: {} }`; on SDK success each offering is
keyed by its identifier and its packages are mapped. -/
def rnGetOfferings (sdkResult : Except String RawOfferings) :
    ConsumablesService.OfferingsResult :=
  match sdkResult with
  | Except.error _ => { all := [] }
  | Except.ok offerings =>
    { all := offerings.all.foldl
        (fun acc offering =>
          ConsumablesService.mapSet acc offering.identifier
            { identifier := offering.identifier
              metadata := offering.metadata
              packages := offering.availablePackages.map mapRNPackage })
        [] }

end RNAdapter

namespace Singleton

/-- The capabilities of the adapter the singleton currently holds: whether it
exposes the optional `setUserId` user-binding capability. -/
structure AdapterCaps where
  hasSetUserId : Bool
deriving Repr, DecidableEq

/-- The module-level state of `src/core/singleton.ts`.  `inst` models the
`instance` variable (an installed `ConsumablesService`, or null); listeners
are identified by `Nat` tokens in registration order. -/
structure SingletonState where
  inst : Option ConsumablesService.State
  currentAdapter : Option AdapterCaps
  currentUserId : Option String
  balanceChangeListeners : List Nat
  userIdChangeListeners : List Nat
deriving Repr, DecidableEq

/-- The state of the module when first loaded: uninitialized, no user, no
listeners. -/
def initialState : SingletonState :=
  { inst := none, currentAdapter := none, currentUserId := none,
    balanceChangeListeners := [], userIdChangeListeners := [] }

/-- `initializeConsumables(config)`: install the adapter and a fresh service
instance; user identity and listener lists are untouched. -/
def initializeConsumables (s : SingletonState) (adapter : AdapterCaps) : SingletonState :=
  { s with currentAdapter := some adapter, inst := some ConsumablesService.new }

/-- `getConsumablesInstance()`: the installed service, or a not-initialized
error. -/
def getConsumablesInstance (s : SingletonState) :
    Except String ConsumablesService.State :=
  match s.inst with
  | none => Except.error "Consumables not initialized. Call initializeConsumables() first."
  | some i => Except.ok i

/-- `isConsumablesInitialized()`. -/
def isConsumablesInitialized (s : SingletonState) : Bool :=
  s.inst.isSome

/-- `resetConsumables()`: drop the instance, adapter, and user identity;
listener lists are left intact. -/
def resetConsumables (s : SingletonState) : SingletonState :=
  { s with inst := none, currentAdapter := none, currentUserId := none }

/-- `getConsumablesUserId()`. -/
def getConsumablesUserId (s : SingletonState) : Option String :=
  s.currentUserId

/-- `onConsumablesBalanceChange(listener)`: append the listener token. -/
def onConsumablesBalanceChange (s : SingletonState) (listener : Nat) : SingletonState :=
  { s with balanceChangeListeners := s.balanceChangeListeners ++ [listener] }

/-- `onConsumablesUserIdChange(listener)`: append the listener token. -/
def onConsumablesUserIdChange (s : SingletonState) (listener : Nat) : SingletonState :=
  { s with userIdChangeListeners := s.userIdChangeListeners ++ [listener] }

/-- `notifyBalanceChange()`: fire every balance-change listener, in
registration order, touching no other state. -/
def notifyBalanceChange (s : SingletonState) : SingletonState × List Nat :=
  (s, s.balanceChangeListeners)

/-- Observable effects of one `setConsumablesUserId` call. -/
structure SetUserIdEffects where
  state : SingletonState
  adapterSetUserIdCalls : Nat
  clearCacheCalls : Nat
  firedUserIdListeners : List Nat
deriving Repr, DecidableEq

/-- `setConsumablesUserId(userId, email?)`: return at once when `userId`
equals the current identifier; otherwise store the new identifier, forward to
the adapter's `setUserId` capability when the held adapter exposes one, clear
the instance's balance cache when an instance is installed, and fire the
user-id-change listeners.  The email is only forwarded to the adapter, so it
leaves the singleton state untouched. -/
def setConsumablesUserId (s : SingletonState) (userId : Option String)
    (_email : Option String) : SetUserIdEffects :=
  if s.currentUserId = userId then
    { state := s, adapterSetUserIdCalls := 0, clearCacheCalls := 0,
      firedUserIdListeners := [] }
  else
    let adapterCalls : Nat :=
      match s.currentAdapter with
      | some a => if a.hasSetUserId then 1 else 0
      | none => 0
    let cleared : Option ConsumablesService.State × Nat :=
      match s.inst with
      | some i => (some (ConsumablesService.clearCache i), 1)
      | none => (none, 0)
    { state := { s with currentUserId := userId, inst := cleared.1 }
      adapterSetUserIdCalls := adapterCalls
      clearCacheCalls := cleared.2
      firedUserIdListeners := s.userIdChangeListeners }

/-- Observable effects of one `refreshConsumablesBalance` call. -/
structure RefreshEffects where
  state : SingletonState
  balanceFetches : Nat
  firedBalanceListeners : List Nat
deriving Repr, DecidableEq

/-- `refreshConsumablesBalance()`, run without interleaving: return at once
when no instance is installed; otherwise await `instance.loadBalance()`
(`fetchResult` is the settled outcome of the balance fetch this call awaits)
and, when it resolves, fire the balance-change listeners; when it rejects the
error propagates before any listener fires. -/
def refreshConsumablesBalance (s : SingletonState)
    (fetchResult : Except String CreditBalance) : RefreshEffects :=
  match s.inst with
  | none => { state := s, balanceFetches := 0, firedBalanceListeners := [] }
  | some i =>
    let started := ConsumablesService.loadBalanceStart i
    match started.2.1 with
    | ConsumablesService.LoadBalanceCall.cached _ =>
      { state := { s with inst := some started.1 }, balanceFetches := started.2.2,
        firedBalanceListeners := s.balanceChangeListeners }
    | ConsumablesService.LoadBalanceCall.promise _ =>
      let done := ConsumablesService.loadBalanceComplete started.1 fetchResult
      { state := { s with inst := some done.1 }, balanceFetches := started.2.2,
        firedBalanceListeners :=
          match done.2 with
          | Except.ok _ => s.balanceChangeListeners
          | Except.error _ => [] }

end Singleton

/-! ## Helper lemmas -/

namespace ConsumablesService

/-- A `loadOfferings()` call made while the cache is empty and a load is in
flight joins the existing promise and starts no fetch. -/
theorem loadOfferingsStart_pending (s : State) (t : Nat)
    (hc : s.offeringsCache = []) (hp : s.loadOfferingsPromise = some t) :
    loadOfferingsStart s = (s, LoadOfferingsCall.promise t, 0) := by
  simp [loadOfferingsStart, hc, hp]

/-- Any number of `loadOfferings()` calls made while the cache is empty and a
load is in flight all join the existing promise and start no fetch. -/
theorem loadOfferingsStartN_pending (s : State) (t : Nat) (n : Nat)
    (hc : s.offeringsCache = []) (hp : s.loadOfferingsPromise = some t) :
    loadOfferingsStartN s n = (s, List.replicate n (LoadOfferingsCall.promise t), 0) := by
  induction n with
  | zero => simp [loadOfferingsStartN]
  | succ k ih =>
    simp [loadOfferingsStartN, loadOfferingsStart_pending s t hc hp, ih,
      List.replicate_succ]

/-- A `loadBalance()` call made while the cache is unpopulated and a load is
in flight joins the existing promise and starts no fetch. -/
theorem loadBalanceStart_pending (s : State) (t : Nat)
    (hc : s.balanceCache = none) (hp : s.loadBalancePromise = some t) :
    loadBalanceStart s = (s, LoadBalanceCall.promise t, 0) := by
  simp [loadBalanceStart, hc, hp]

/-- Any number of `loadBalance()` calls made while the cache is unpopulated
and a load is in flight all join the existing promise and start no fetch. -/
theorem loadBalanceStartN_pending (s : State) (t : Nat) (n : Nat)
    (hc : s.balanceCache = none) (hp : s.loadBalancePromise = some t) :
    loadBalanceStartN s n = (s, List.replicate n (LoadBalanceCall.promise t), 0) := by
  induction n with
  | zero => simp [loadBalanceStartN]
  | succ k ih =>
    simp [loadBalanceStartN, loadBalanceStart_pending s t hc hp, ih,
      List.replicate_succ]

end ConsumablesService

/-- A concrete service state whose offerings cache is populated. -/
def warmOfferingsState : ConsumablesService.State :=
  { balanceCache := none,
    offeringsCache := [("default", { offeringId := "default", packages := [] })],
    loadOfferingsPromise := none, loadBalancePromise := none, nextPromiseId := 1 }

/-- A concrete service state whose balance cache is populated. -/
def warmBalanceState : ConsumablesService.State :=
  { balanceCache := some { balance := 10, initialCredits := 3 },
    offeringsCache := [], loadOfferingsPromise := none, loadBalancePromise := none,
    nextPromiseId := 1 }

/-! ## Claims -/

/-- C1: for every set of `n ≥ 1` concurrent `loadOfferings()` calls made
while the offerings cache is empty (and no load is yet in flight), exactly
one adapter `getOfferings` fetch is started, every caller gets the same
single pending promise (so every caller observes the outcome of that one
fetch), and that promise is the one left in flight; and from any state whose
offerings cache is non-empty, `loadOfferings()` returns immediately without
starting any adapter fetch or changing the state. -/
theorem loadOfferings_concurrent_single_fetch
    (s u : ConsumablesService.State) (n : Nat)
    (hc : s.offeringsCache = []) (hp : s.loadOfferingsPromise = none)
    (hn : 1 ≤ n) (hu : ConsumablesService.hasLoadedOfferings u = true) :
    (ConsumablesService.loadOfferingsStartN s n).2.2 = 1 ∧
    (ConsumablesService.loadOfferingsStartN s n).2.1 =
      List.replicate n (ConsumablesService.LoadOfferingsCall.promise s.nextPromiseId) ∧
    (ConsumablesService.loadOfferingsStartN s n).1.loadOfferingsPromise =
      some s.nextPromiseId ∧
    ConsumablesService.loadOfferingsStart u =
      (u, ConsumablesService.LoadOfferingsCall.cacheHit, 0) := by
  obtain ⟨m, rfl⟩ : ∃ m, n = m + 1 := ⟨n - 1, (Nat.succ_pred_eq_of_pos hn).symm⟩
  have hstart : ConsumablesService.loadOfferingsStart s =
      ({ s with loadOfferingsPromise := some s.nextPromiseId,
                nextPromiseId := s.nextPromiseId + 1 },
       ConsumablesService.LoadOfferingsCall.promise s.nextPromiseId, 1) := by
    simp [ConsumablesService.loadOfferingsStart, hc, hp]
  have hrest := ConsumablesService.loadOfferingsStartN_pending
      { s with loadOfferingsPromise := some s.nextPromiseId,
               nextPromiseId := s.nextPromiseId + 1 }
      s.nextPromiseId m hc rfl
  have hwarm : (0 : Nat) < u.offeringsCache.length := by
    simpa [ConsumablesService.hasLoadedOfferings] using hu
  refine ⟨?_, ?_, ?_, ?_⟩
  · simp [ConsumablesService.loadOfferingsStartN, hstart, hrest]
  · simp [ConsumablesService.loadOfferingsStartN, hstart, hrest, List.replicate_succ]
  · simp [ConsumablesService.loadOfferingsStartN, hstart, hrest]
  · simp [ConsumablesService.loadOfferingsStart, hwarm]

/-- Witness for C1: three concurrent calls on a fresh service start exactly
one fetch and share one promise; a warm-cache state returns immediately. -/
theorem loadOfferings_concurrent_single_fetch_witness :
    (ConsumablesService.new.offeringsCache = [] ∧
     ConsumablesService.new.loadOfferingsPromise = none ∧
     1 ≤ 3 ∧
     ConsumablesService.hasLoadedOfferings warmOfferingsState = true) ∧
    ((ConsumablesService.loadOfferingsStartN ConsumablesService.new 3).2.2 = 1 ∧
     (ConsumablesService.loadOfferingsStartN ConsumablesService.new 3).2.1 =
       List.replicate 3 (ConsumablesService.LoadOfferingsCall.promise
         ConsumablesService.new.nextPromiseId) ∧
     (ConsumablesService.loadOfferingsStartN ConsumablesService.new 3).1.loadOfferingsPromise =
       some ConsumablesService.new.nextPromiseId ∧
     ConsumablesService.loadOfferingsStart warmOfferingsState =
       (warmOfferingsState, ConsumablesService.LoadOfferingsCall.cacheHit, 0)) :=
  ⟨⟨rfl, rfl, by norm_num, rfl⟩,
   loadOfferings_concurrent_single_fetch ConsumablesService.new warmOfferingsState 3
     rfl rfl (by norm_num) rfl⟩

/-- C2: `loadBalance()` on a populated cache returns the cached balance with
no backend fetch and no state change; and for every set of `n ≥ 1` concurrent
`loadBalance()` calls made while the cache is unpopulated (and no load is yet
in flight), exactly one backend `getBalance` fetch is started, every caller
joins the same single pending promise, and when that fetch resolves with a
balance the balance is cached and the shared promise resolves to it — so
every caller receives that result. -/
theorem loadBalance_cache_and_coalescing
    (s u : ConsumablesService.State) (b bal : CreditBalance) (n : Nat)
    (hwarm : u.balanceCache = some b)
    (hc : s.balanceCache = none) (hp : s.loadBalancePromise = none) (hn : 1 ≤ n) :
    ConsumablesService.loadBalanceStart u =
      (u, ConsumablesService.LoadBalanceCall.cached b, 0) ∧
    (ConsumablesService.loadBalanceStartN s n).2.2 = 1 ∧
    (ConsumablesService.loadBalanceStartN s n).2.1 =
      List.replicate n (ConsumablesService.LoadBalanceCall.promise s.nextPromiseId) ∧
    (ConsumablesService.loadBalanceComplete (ConsumablesService.loadBalanceStartN s n).1
        (Except.ok bal)).1.balanceCache = some bal ∧
    (ConsumablesService.loadBalanceComplete (ConsumablesService.loadBalanceStartN s n).1
        (Except.ok bal)).2 = Except.ok bal := by
  obtain ⟨m, rfl⟩ : ∃ m, n = m + 1 := ⟨n - 1, (Nat.succ_pred_eq_of_pos hn).symm⟩
  have hstart : ConsumablesService.loadBalanceStart s =
      ({ s with loadBalancePromise := some s.nextPromiseId,
                nextPromiseId := s.nextPromiseId + 1 },
       ConsumablesService.LoadBalanceCall.promise s.nextPromiseId, 1) := by
    simp [ConsumablesService.loadBalanceStart, hc, hp]
  have hrest := ConsumablesService.loadBalanceStartN_pending
      { s with loadBalancePromise := some s.nextPromiseId,
               nextPromiseId := s.nextPromiseId + 1 }
      s.nextPromiseId m hc rfl
  refine ⟨?_, ?_, ?_, ?_, ?_⟩
  · simp [ConsumablesService.loadBalanceStart, hwarm]
  · simp [ConsumablesService.loadBalanceStartN, hstart, hrest]
  · simp [ConsumablesService.loadBalanceStartN, hstart, hrest, List.replicate_succ]
  · simp [ConsumablesService.loadBalanceStartN, hstart, hrest,
      ConsumablesService.loadBalanceComplete]
  · simp [ConsumablesService.loadBalanceStartN, hstart, hrest,
      ConsumablesService.loadBalanceComplete]

/-- Witness for C2: a warm cache returns `{balance := 10, initialCredits := 3}`
with no fetch; two concurrent calls on a fresh service share one fetch whose
result is cached and delivered to both. -/
theorem loadBalance_cache_and_coalescing_witness :
    (warmBalanceState.balanceCache = some { balance := 10, initialCredits := 3 } ∧
     ConsumablesService.new.balanceCache = none ∧
     ConsumablesService.new.loadBalancePromise = none ∧
     1 ≤ 2) ∧
    (ConsumablesService.loadBalanceStart warmBalanceState =
      (warmBalanceState,
       ConsumablesService.LoadBalanceCall.cached { balance := 10, initialCredits := 3 }, 0) ∧
     (ConsumablesService.loadBalanceStartN ConsumablesService.new 2).2.2 = 1 ∧
     (ConsumablesService.loadBalanceStartN ConsumablesService.new 2).2.1 =
       List.replicate 2 (ConsumablesService.LoadBalanceCall.promise
         ConsumablesService.new.nextPromiseId) ∧
     (ConsumablesService.loadBalanceComplete
        (ConsumablesService.loadBalanceStartN ConsumablesService.new 2).1
        (Except.ok { balance := 7, initialCredits := 3 })).1.balanceCache =
       some { balance := 7, initialCredits := 3 } ∧
     (ConsumablesService.loadBalanceComplete
        (ConsumablesService.loadBalanceStartN ConsumablesService.new 2).1
        (Except.ok { balance := 7, initialCredits := 3 })).2 =
       Except.ok { balance := 7, initialCredits := 3 }) :=
  ⟨⟨rfl, rfl, rfl, by norm_num⟩,
   loadBalance_cache_and_coalescing ConsumablesService.new warmBalanceState
     { balance := 10, initialCredits := 3 } { balance := 7, initialCredits := 3 } 2
     rfl rfl rfl (by norm_num)⟩

/-- C3: `purchase(params)` mutates the balance cache exactly when both the
adapter purchase and the backend record call succeed: an adapter failure
propagates with the state untouched; a backend-record failure after adapter
success propagates with the state untouched; and when both succeed the
returned value and the new cached balance are both the backend response
mapped to `{balance, initialCredits}`. -/
theorem purchase_transaction_semantics
    (s : ConsumablesService.State)
    (adapterPurchase : ConsumablePurchaseParams → Except String ConsumablePurchaseResult)
    (backendPurchase : ConsumablesApiClient.RecordPurchaseParams →
      ConsumablesApiClient.NetworkResponse ConsumablesApiClient.BalanceWire)
    (params : ConsumablePurchaseParams) :
    (∀ e, adapterPurchase params = Except.error e →
      ConsumablesService.purchase s adapterPurchase backendPurchase params =
        (s, Except.error e)) ∧
    (∀ pr e, adapterPurchase params = Except.ok pr →
      ConsumablesApiClient.recordPurchase
        (backendPurchase (ConsumablesService.purchaseRecordParams pr)) = Except.error e →
      ConsumablesService.purchase s adapterPurchase backendPurchase params =
        (s, Except.error e)) ∧
    (∀ pr w, adapterPurchase params = Except.ok pr →
      (backendPurchase (ConsumablesService.purchaseRecordParams pr)).ok = true →
      (backendPurchase (ConsumablesService.purchaseRecordParams pr)).data = some w →
      ConsumablesService.purchase s adapterPurchase backendPurchase params =
        ({ s with balanceCache := some { balance := w.data.balance, initialCredits := w.data.initial_credits } },
         Except.ok { balance := w.data.balance, initialCredits := w.data.initial_credits })) := by
  refine ⟨?_, ?_, ?_⟩
  · intro e ha
    simp [ConsumablesService.purchase, ha]
  · intro pr e ha hb
    simp [ConsumablesService.purchase, ha, hb]
  · intro pr w ha hok hdata
    simp [ConsumablesService.purchase, ha, ConsumablesApiClient.recordPurchase,
      ConsumablesApiClient.unwrap, hok, hdata, Except.map]

/-- The adapter of the C3 scenario: the purchase resolves with transaction
`txn_123` for 5 credits at 499 cents. -/
def scenarioAdapterPurchase :
    ConsumablePurchaseParams → Except String ConsumablePurchaseResult :=
  fun _ => Except.ok
    { transactionId := "txn_123", productId := "credits_5", credits := 5,
      priceCents := 499, currency := "USD", source := "web" }

/-- The backend of the C3 scenario: `recordPurchase` answers
`{balance: 15, initial_credits: 3}`. -/
def scenarioBackendPurchase :
    ConsumablesApiClient.RecordPurchaseParams →
      ConsumablesApiClient.NetworkResponse ConsumablesApiClient.BalanceWire :=
  fun _ =>
    { ok := true, status := 200,
      data := some { data := { balance := 15, initial_credits := 3 }, error := none } }

/-- Witness for C3: the spec's purchase scenario ends with result and cached
balance both `{balance := 15, initialCredits := 3}`. -/
theorem purchase_transaction_semantics_witness :
    ConsumablesService.purchase ConsumablesService.new scenarioAdapterPurchase
      scenarioBackendPurchase { packageId := "pkg_5", offeringId := "default" } =
      ({ ConsumablesService.new with
          balanceCache := some { balance := 15, initialCredits := 3 } },
       Except.ok { balance := 15, initialCredits := 3 }) :=
  (purchase_transaction_semantics ConsumablesService.new scenarioAdapterPurchase
      scenarioBackendPurchase { packageId := "pkg_5", offeringId := "default" }).2.2
    { transactionId := "txn_123", productId := "credits_5", credits := 5,
      priceCents := 499, currency := "USD", source := "web" }
    { data := { balance := 15, initial_credits := 3 }, error := none }
    rfl rfl rfl

/-- C4 counterexample: when the service's own offerings fetch (the adapter
call) fails, `loadOfferings()` delivers that failure to its caller — the
failure is not caught inside the Orchestration Service. -/
theorem offeringsFailure_counterexample :
    (ConsumablesService.loadOfferingsComplete
       (ConsumablesService.loadOfferingsStart ConsumablesService.new).1
       (Except.error "boom")).2 = Except.error "boom" ∧
    (ConsumablesService.loadOfferingsComplete
       (ConsumablesService.loadOfferingsStart ConsumablesService.new).1
       (Except.error "boom")).2 ≠ Except.ok () := by
  refine ⟨rfl, ?_⟩
  simp [ConsumablesService.loadOfferingsComplete, ConsumablesService.loadOfferingsStart,
    ConsumablesService.new]

/-- C4 (amended): a failure of the underlying SDK fetch is caught inside the
platform adapter's `getOfferings`, which logs it and converts it to an
empty-catalog result, so the caller of `loadOfferings()` sees success with an
unchanged (empty) catalog; the Orchestration Service itself propagates any
error its adapter does raise, and the other core operations (`loadBalance`,
`recordUsage`) likewise propagate their errors. -/
theorem offeringsFailure_caught_in_adapter
    (e : String) (s u : ConsumablesService.State)
    (hc : s.offeringsCache = []) (hp : s.loadOfferingsPromise = none) :
    RNAdapter.rnGetOfferings (Except.error e) = { all := [] } ∧
    (ConsumablesService.loadOfferingsComplete
       (ConsumablesService.loadOfferingsStart s).1
       (Except.ok (RNAdapter.rnGetOfferings (Except.error e)))).2 = Except.ok () ∧
    (ConsumablesService.loadOfferingsComplete
       (ConsumablesService.loadOfferingsStart s).1
       (Except.ok (RNAdapter.rnGetOfferings (Except.error e)))).1.offeringsCache = [] ∧
    (ConsumablesService.loadOfferingsComplete
       (ConsumablesService.loadOfferingsStart s).1
       (Except.error e)).2 = Except.error e ∧
    (ConsumablesService.loadBalanceComplete u (Except.error e)).2 = Except.error e ∧
    ConsumablesService.recordUsage u (Except.error e) = (u, Except.error e) := by
  refine ⟨rfl, ?_, ?_, ?_, ?_, ?_⟩
  · simp [ConsumablesService.loadOfferingsComplete, RNAdapter.rnGetOfferings]
  · simp [ConsumablesService.loadOfferingsComplete, RNAdapter.rnGetOfferings,
      ConsumablesService.loadOfferingsStart, hc, hp]
  · simp [ConsumablesService.loadOfferingsComplete]
  · simp [ConsumablesService.loadBalanceComplete]
  · simp [ConsumablesService.recordUsage]

/-- Witness for C4 (amended): a concrete SDK failure on a fresh service. -/
theorem offeringsFailure_caught_in_adapter_witness :
    (ConsumablesService.new.offeringsCache = [] ∧
     ConsumablesService.new.loadOfferingsPromise = none) ∧
    (RNAdapter.rnGetOfferings (Except.error "network down") = { all := [] } ∧
     (ConsumablesService.loadOfferingsComplete
        (ConsumablesService.loadOfferingsStart ConsumablesService.new).1
        (Except.ok (RNAdapter.rnGetOfferings (Except.error "network down")))).2 =
       Except.ok () ∧
     (ConsumablesService.loadOfferingsComplete
        (ConsumablesService.loadOfferingsStart ConsumablesService.new).1
        (Except.ok (RNAdapter.rnGetOfferings (Except.error "network down")))).1.offeringsCache =
       [] ∧
     (ConsumablesService.loadOfferingsComplete
        (ConsumablesService.loadOfferingsStart ConsumablesService.new).1
        (Except.error "network down")).2 = Except.error "network down" ∧
     (ConsumablesService.loadBalanceComplete ConsumablesService.new
        (Except.error "network down")).2 = Except.error "network down" ∧
     ConsumablesService.recordUsage ConsumablesService.new
        (Except.error "network down") =
       (ConsumablesService.new, Except.error "network down")) :=
  ⟨⟨rfl, rfl⟩,
   offeringsFailure_caught_in_adapter "network down" ConsumablesService.new
     ConsumablesService.new rfl rfl⟩

/-- A concrete service state with both caches populated. -/
def warmBothState : ConsumablesService.State :=
  { warmOfferingsState with balanceCache := some { balance := 10, initialCredits := 3 } }

/-- C5: for every service state, `clearCache()` empties the balance cache and
leaves the offerings cache unchanged; in particular on a state with loaded
offerings, `hasLoadedOfferings()` stays true afterwards while
`hasLoadedBalance()` is false. -/
theorem clearCache_preserves_offerings
    (s u : ConsumablesService.State)
    (hu : ConsumablesService.hasLoadedOfferings u = true) :
    (ConsumablesService.clearCache s).balanceCache = none ∧
    (ConsumablesService.clearCache s).offeringsCache = s.offeringsCache ∧
    ConsumablesService.hasLoadedBalance (ConsumablesService.clearCache s) = false ∧
    ConsumablesService.hasLoadedOfferings (ConsumablesService.clearCache s) =
      ConsumablesService.hasLoadedOfferings s ∧
    ConsumablesService.hasLoadedOfferings (ConsumablesService.clearCache u) = true ∧
    ConsumablesService.hasLoadedBalance (ConsumablesService.clearCache u) = false := by
  refine ⟨rfl, rfl, rfl, rfl, ?_, rfl⟩
  simpa [ConsumablesService.hasLoadedOfferings, ConsumablesService.clearCache] using hu

/-- Witness for C5: clearing a state with both caches warm. -/
theorem clearCache_preserves_offerings_witness :
    ConsumablesService.hasLoadedOfferings warmBothState = true ∧
    ((ConsumablesService.clearCache warmBothState).balanceCache = none ∧
     (ConsumablesService.clearCache warmBothState).offeringsCache =
       warmBothState.offeringsCache ∧
     ConsumablesService.hasLoadedBalance (ConsumablesService.clearCache warmBothState) =
       false ∧
     ConsumablesService.hasLoadedOfferings (ConsumablesService.clearCache warmBothState) =
       ConsumablesService.hasLoadedOfferings warmBothState ∧
     ConsumablesService.hasLoadedOfferings (ConsumablesService.clearCache warmBothState) =
       true ∧
     ConsumablesService.hasLoadedBalance (ConsumablesService.clearCache warmBothState) =
       false) :=
  ⟨rfl, clearCache_preserves_offerings warmBothState warmBothState rfl⟩

/-- C6: a successful `recordUsage(filename?)` overwrites only the `balance`
field of the cached balance when a cache exists (leaving `initialCredits`
unchanged), leaves the cache absent when none exists, and returns the
backend `{balance, success}` response verbatim in both cases. -/
theorem recordUsage_updates_only_balance
    (s su : ConsumablesService.State) (r : ConsumablesApiClient.UsageWire)
    (b : CreditBalance)
    (hsome : s.balanceCache = some b) (hnone : su.balanceCache = none) :
    ConsumablesService.recordUsage s (Except.ok r) =
      ({ s with balanceCache := some { balance := r.balance, initialCredits := b.initialCredits } },
       Except.ok r) ∧
    ConsumablesService.recordUsage su (Except.ok r) = (su, Except.ok r) := by
  constructor
  · simp [ConsumablesService.recordUsage, hsome]
  · simp [ConsumablesService.recordUsage, hnone]

/-- Witness for C6: the spec scenario — cache `{balance := 10,
initialCredits := 3}`, backend answers `{balance := 9, success := true}`,
so the cache becomes `{balance := 9, initialCredits := 3}` and the result is
returned verbatim; on a fresh service the cache stays absent. -/
theorem recordUsage_updates_only_balance_witness :
    (warmBalanceState.balanceCache = some { balance := 10, initialCredits := 3 } ∧
     ConsumablesService.new.balanceCache = none) ∧
    (ConsumablesService.recordUsage warmBalanceState
        (Except.ok { balance := 9, success := true }) =
      ({ warmBalanceState with
          balanceCache := some { balance := 9, initialCredits := 3 } },
       Except.ok { balance := 9, success := true }) ∧
     ConsumablesService.recordUsage ConsumablesService.new
        (Except.ok { balance := 9, success := true }) =
      (ConsumablesService.new, Except.ok { balance := 9, success := true })) :=
  ⟨⟨rfl, rfl⟩,
   recordUsage_updates_only_balance warmBalanceState ConsumablesService.new
     { balance := 9, success := true } { balance := 10, initialCredits := 3 } rfl rfl⟩

/-- The backend balance response of the C7 scenario: non-success with
`error: "unauthorized"` (the inner payload is immaterial on the error path). -/
def respUnauthorized : ConsumablesApiClient.NetworkResponse ConsumablesApiClient.BalanceWire :=
  { ok := false, status := 401,
    data := some { data := { balance := 0, initial_credits := 0 }, error := some "unauthorized" } }

/-- C7: for every backend response, a non-success status or an absent `data`
field makes the operation fail — with the server-provided (non-empty) error
message when one is present and the generic "Request failed: <status>"
fallback otherwise — while an ok response with a body succeeds with its
payload; in particular a non-success balance response with error
"unauthorized" makes `loadBalance()` reject with message "unauthorized". -/
theorem apiClient_error_envelope
    (T : Type) (resp : ConsumablesApiClient.NetworkResponse T)
    (w : ConsumablesApiClient.ApiResponse T) (e : String)
    (s : ConsumablesService.State)
    (hc : s.balanceCache = none) (hp : s.loadBalancePromise = none) :
    (resp.data = none →
      ConsumablesApiClient.unwrap resp =
        Except.error ("Request failed: " ++ toString resp.status)) ∧
    (resp.ok = false → resp.data = some w → w.error = some e → e ≠ "" →
      ConsumablesApiClient.unwrap resp = Except.error e) ∧
    (resp.ok = false → resp.data = some w → w.error = none →
      ConsumablesApiClient.unwrap resp =
        Except.error ("Request failed: " ++ toString resp.status)) ∧
    (resp.ok = true → resp.data = some w →
      ConsumablesApiClient.unwrap resp = Except.ok w.data) ∧
    ((ConsumablesService.loadBalanceStart s).2.2 = 1 ∧
     (ConsumablesService.loadBalanceComplete (ConsumablesService.loadBalanceStart s).1
        (ConsumablesApiClient.getBalance respUnauthorized)).2 =
       Except.error "unauthorized") := by
  refine ⟨?_, ?_, ?_, ?_, ?_, ?_⟩
  · intro hnone
    simp [ConsumablesApiClient.unwrap, hnone]
  · intro hok hdata herr hne
    simp [ConsumablesApiClient.unwrap, hok, hdata, herr, jsStrOr, hne]
  · intro hok hdata herr
    simp [ConsumablesApiClient.unwrap, hok, hdata, herr, jsStrOr]
  · intro hok hdata
    simp [ConsumablesApiClient.unwrap, hok, hdata]
  · simp [ConsumablesService.loadBalanceStart, hc, hp]
  · simp [ConsumablesService.loadBalanceStart, hc, hp,
      ConsumablesService.loadBalanceComplete, ConsumablesApiClient.getBalance,
      ConsumablesApiClient.unwrap, respUnauthorized, jsStrOr, Except.map]

/-- Witness for C7: concrete responses — absent body (status 500), the
"unauthorized" scenario, an error response with no message (status 404), and
a successful balance payload. -/
theorem apiClient_error_envelope_witness :
    ConsumablesApiClient.unwrap
      (T := ConsumablesApiClient.BalanceWire)
      { ok := false, status := 500, data := none } =
      Except.error "Request failed: 500" ∧
    ConsumablesApiClient.unwrap respUnauthorized = Except.error "unauthorized" ∧
    ConsumablesApiClient.unwrap
      (T := ConsumablesApiClient.BalanceWire)
      { ok := false, status := 404,
        data := some { data := { balance := 0, initial_credits := 0 }, error := none } } =
      Except.error "Request failed: 404" ∧
    ConsumablesApiClient.unwrap
      (T := ConsumablesApiClient.BalanceWire)
      { ok := true, status := 200,
        data := some { data := { balance := 10, initial_credits := 3 }, error := none } } =
      Except.ok { balance := 10, initial_credits := 3 } ∧
    ((ConsumablesService.loadBalanceStart ConsumablesService.new).2.2 = 1 ∧
     (ConsumablesService.loadBalanceComplete
        (ConsumablesService.loadBalanceStart ConsumablesService.new).1
        (ConsumablesApiClient.getBalance respUnauthorized)).2 =
       Except.error "unauthorized") :=
  ⟨(apiClient_error_envelope ConsumablesApiClient.BalanceWire
      { ok := false, status := 500, data := none }
      { data := { balance := 0, initial_credits := 0 }, error := none } ""
      ConsumablesService.new rfl rfl).1 rfl,
   (apiClient_error_envelope ConsumablesApiClient.BalanceWire respUnauthorized
      { data := { balance := 0, initial_credits := 0 }, error := some "unauthorized" }
      "unauthorized" ConsumablesService.new rfl rfl).2.1 rfl rfl rfl (by decide),
   (apiClient_error_envelope ConsumablesApiClient.BalanceWire
      { ok := false, status := 404,
        data := some { data := { balance := 0, initial_credits := 0 }, error := none } }
      { data := { balance := 0, initial_credits := 0 }, error := none } ""
      ConsumablesService.new rfl rfl).2.2.1 rfl rfl rfl,
   (apiClient_error_envelope ConsumablesApiClient.BalanceWire
      { ok := true, status := 200,
        data := some { data := { balance := 10, initial_credits := 3 }, error := none } }
      { data := { balance := 10, initial_credits := 3 }, error := none } ""
      ConsumablesService.new rfl rfl).2.2.2.1 rfl rfl,
   (apiClient_error_envelope ConsumablesApiClient.BalanceWire respUnauthorized
      { data := { balance := 0, initial_credits := 0 }, error := some "unauthorized" }
      "unauthorized" ConsumablesService.new rfl rfl).2.2.2.2⟩

/-- A singleton that has been initialized with an adapter exposing
`setUserId` and has one registered user-id-change listener. -/
def initializedSingleton : Singleton.SingletonState :=
  Singleton.onConsumablesUserIdChange
    (Singleton.initializeConsumables Singleton.initialState { hasSetUserId := true }) 0

/-- C8: `setConsumablesUserId` is a no-op when the target id equals the
stored identifier (including both absent); hence of two consecutive
`setUserId(x)` calls from a state holding a different id, the first invokes
the adapter's user-binding capability once, clears the balance cache once,
and fires the user-id-change listeners once, while the second changes
nothing, performs no adapter call or cache clear, and fires no listener. -/
theorem setUserId_idempotent
    (s u : Singleton.SingletonState) (x : String) (email em uid : Option String)
    (svc : ConsumablesService.State) (a : Singleton.AdapterCaps)
    (hadapter : s.currentAdapter = some a) (hcap : a.hasSetUserId = true)
    (hinst : s.inst = some svc) (hne : s.currentUserId ≠ some x)
    (hequ : u.currentUserId = uid) :
    Singleton.setConsumablesUserId u uid em =
      { state := u, adapterSetUserIdCalls := 0, clearCacheCalls := 0,
        firedUserIdListeners := [] } ∧
    (Singleton.setConsumablesUserId s (some x) email).adapterSetUserIdCalls = 1 ∧
    (Singleton.setConsumablesUserId s (some x) email).clearCacheCalls = 1 ∧
    (Singleton.setConsumablesUserId s (some x) email).firedUserIdListeners =
      s.userIdChangeListeners ∧
    Singleton.setConsumablesUserId
        (Singleton.setConsumablesUserId s (some x) email).state (some x) email =
      { state := (Singleton.setConsumablesUserId s (some x) email).state,
        adapterSetUserIdCalls := 0, clearCacheCalls := 0,
        firedUserIdListeners := [] } := by
  refine ⟨?_, ?_, ?_, ?_, ?_⟩
  · simp [Singleton.setConsumablesUserId, hequ]
  · simp [Singleton.setConsumablesUserId, hne, hadapter, hcap]
  · simp [Singleton.setConsumablesUserId, hne, hinst]
  · simp [Singleton.setConsumablesUserId, hne]
  · simp [Singleton.setConsumablesUserId, hne]

/-- Witness for C8: two consecutive `setUserId("user123")` calls on an
initialized singleton with one listener, and the both-absent no-op. -/
theorem setUserId_idempotent_witness :
    (initializedSingleton.currentAdapter = some { hasSetUserId := true } ∧
     initializedSingleton.inst = some ConsumablesService.new ∧
     initializedSingleton.currentUserId ≠ some "user123" ∧
     Singleton.initialState.currentUserId = none) ∧
    (Singleton.setConsumablesUserId Singleton.initialState none none =
      { state := Singleton.initialState, adapterSetUserIdCalls := 0,
        clearCacheCalls := 0, firedUserIdListeners := [] } ∧
     (Singleton.setConsumablesUserId initializedSingleton
        (some "user123") (some "user@test.com")).adapterSetUserIdCalls = 1 ∧
     (Singleton.setConsumablesUserId initializedSingleton
        (some "user123") (some "user@test.com")).clearCacheCalls = 1 ∧
     (Singleton.setConsumablesUserId initializedSingleton
        (some "user123") (some "user@test.com")).firedUserIdListeners =
       initializedSingleton.userIdChangeListeners ∧
     Singleton.setConsumablesUserId
        (Singleton.setConsumablesUserId initializedSingleton
          (some "user123") (some "user@test.com")).state
        (some "user123") (some "user@test.com") =
      { state := (Singleton.setConsumablesUserId initializedSingleton
          (some "user123") (some "user@test.com")).state,
        adapterSetUserIdCalls := 0, clearCacheCalls := 0,
        firedUserIdListeners := [] }) :=
  ⟨⟨rfl, rfl, by decide, rfl⟩,
   setUserId_idempotent initializedSingleton Singleton.initialState "user123"
     (some "user@test.com") none none ConsumablesService.new
     { hasSetUserId := true } rfl rfl rfl (by decide) rfl⟩

/-- A state reachable before any initialization: two listeners were
registered while the singleton is uninitialized (the subscription functions
do not check initialization). -/
def uninitializedWithListeners : Singleton.SingletonState :=
  Singleton.onConsumablesUserIdChange
    (Singleton.onConsumablesBalanceChange Singleton.initialState 0) 1

/-- C9 counterexample: while the singleton is uninitialized,
`setConsumablesUserId("user123")` changes observable state
(`getConsumablesUserId` goes from absent to "user123") and fires the
registered user-id-change listener, and `notifyBalanceChange` fires the
registered balance-change listener — contradicting that every operation
other than initialize/isInitialized/reset fails or is a no-op that fires no
listeners. -/
theorem uninitialized_ops_counterexample :
    Singleton.isConsumablesInitialized uninitializedWithListeners = false ∧
    (Singleton.setConsumablesUserId uninitializedWithListeners
       (some "user123") none).firedUserIdListeners = [1] ∧
    Singleton.getConsumablesUserId
      (Singleton.setConsumablesUserId uninitializedWithListeners
        (some "user123") none).state = some "user123" ∧
    Singleton.getConsumablesUserId uninitializedWithListeners = none ∧
    (Singleton.notifyBalanceChange uninitializedWithListeners).2 = [0] := by
  refine ⟨rfl, ?_, ?_, rfl, rfl⟩ <;> decide

/-- C9 (amended): while the singleton is uninitialized, `getInstance` fails
with the not-initialized error and `refreshBalance` does nothing (no fetch,
no listeners, no state change); but `setUserId` with a fresh id still
updates the stored identifier and fires the user-id-change listeners (only
the adapter call and the cache clear are skipped), and `notifyBalanceChange`
fires the balance-change listeners regardless of initialization. -/
theorem uninitialized_ops_amended
    (s : Singleton.SingletonState) (u : String) (email : Option String)
    (fetch : Except String CreditBalance)
    (hi : s.inst = none) (ha : s.currentAdapter = none)
    (hu : s.currentUserId ≠ some u) :
    Singleton.getConsumablesInstance s =
      Except.error "Consumables not initialized. Call initializeConsumables() first." ∧
    Singleton.refreshConsumablesBalance s fetch =
      { state := s, balanceFetches := 0, firedBalanceListeners := [] } ∧
    (Singleton.setConsumablesUserId s (some u) email).adapterSetUserIdCalls = 0 ∧
    (Singleton.setConsumablesUserId s (some u) email).clearCacheCalls = 0 ∧
    (Singleton.setConsumablesUserId s (some u) email).state.currentUserId = some u ∧
    (Singleton.setConsumablesUserId s (some u) email).firedUserIdListeners =
      s.userIdChangeListeners ∧
    (Singleton.notifyBalanceChange s).2 = s.balanceChangeListeners := by
  refine ⟨?_, ?_, ?_, ?_, ?_, ?_, rfl⟩
  · simp [Singleton.getConsumablesInstance, hi]
  · simp [Singleton.refreshConsumablesBalance, hi]
  · simp [Singleton.setConsumablesUserId, hu, ha]
  · simp [Singleton.setConsumablesUserId, hu, hi]
  · simp [Singleton.setConsumablesUserId, hu]
  · simp [Singleton.setConsumablesUserId, hu]

/-- Witness for C9 (amended): the uninitialized two-listener state. -/
theorem uninitialized_ops_amended_witness :
    (uninitializedWithListeners.inst = none ∧
     uninitializedWithListeners.currentAdapter = none ∧
     uninitializedWithListeners.currentUserId ≠ some "user123") ∧
    (Singleton.getConsumablesInstance uninitializedWithListeners =
      Except.error "Consumables not initialized. Call initializeConsumables() first." ∧
     Singleton.refreshConsumablesBalance uninitializedWithListeners
        (Except.ok { balance := 10, initialCredits := 3 }) =
      { state := uninitializedWithListeners, balanceFetches := 0,
        firedBalanceListeners := [] } ∧
     (Singleton.setConsumablesUserId uninitializedWithListeners
        (some "user123") none).adapterSetUserIdCalls = 0 ∧
     (Singleton.setConsumablesUserId uninitializedWithListeners
        (some "user123") none).clearCacheCalls = 0 ∧
     (Singleton.setConsumablesUserId uninitializedWithListeners
        (some "user123") none).state.currentUserId = some "user123" ∧
     (Singleton.setConsumablesUserId uninitializedWithListeners
        (some "user123") none).firedUserIdListeners =
       uninitializedWithListeners.userIdChangeListeners ∧
     (Singleton.notifyBalanceChange uninitializedWithListeners).2 =
       uninitializedWithListeners.balanceChangeListeners) :=
  ⟨⟨rfl, rfl, by decide⟩,
   uninitialized_ops_amended uninitializedWithListeners "user123" none
     (Except.ok { balance := 10, initialCredits := 3 }) rfl rfl (by decide)⟩

/-- `Map.set` never produces an empty map. -/
theorem mapSet_ne_nil {α : Type} (l : List (String × α)) (k : String) (v : α) :
    ConsumablesService.mapSet l k v ≠ [] := by
  cases l with
  | nil => simp [ConsumablesService.mapSet]
  | cons hd tl =>
    simp only [ConsumablesService.mapSet]
    split <;> simp

/-- Folding `Map.set` over any entry list keeps a non-empty cache
non-empty. -/
theorem foldl_mapSet_ne_nil
    (entries : List (String × ConsumablesService.AdapterOffering))
    (init : List (String × CreditOffering)) (h : init ≠ []) :
    entries.foldl
      (fun cache kv =>
        ConsumablesService.mapSet cache kv.1
          { offeringId := kv.2.identifier, packages := kv.2.packages })
      init ≠ [] := by
  induction entries generalizing init with
  | nil => simpa using h
  | cons e rest ih =>
    exact ih _ (mapSet_ne_nil _ _ _)

/-- C10: when the adapter's `getOfferings` resolves successfully with an
empty offerings mapping, `loadOfferings()` completes successfully but caches
nothing: `hasLoadedOfferings()` is still false and the next `loadOfferings()`
call starts another adapter fetch; when the fetch resolves with a non-empty
catalog instead, the cache becomes non-empty and the next call returns from
cache without a fetch — the at-most-one-fetch property holds only for
non-empty catalogs. -/
theorem emptyOfferings_not_cached
    (s : ConsumablesService.State) (k : String)
    (off : ConsumablesService.AdapterOffering)
    (rest : List (String × ConsumablesService.AdapterOffering))
    (hc : s.offeringsCache = []) (hp : s.loadOfferingsPromise = none) :
    (ConsumablesService.loadOfferingsComplete
       (ConsumablesService.loadOfferingsStart s).1 (Except.ok { all := [] })).2 =
      Except.ok () ∧
    (ConsumablesService.loadOfferingsComplete
       (ConsumablesService.loadOfferingsStart s).1 (Except.ok { all := [] })).1.offeringsCache =
      [] ∧
    ConsumablesService.hasLoadedOfferings
      (ConsumablesService.loadOfferingsComplete
        (ConsumablesService.loadOfferingsStart s).1 (Except.ok { all := [] })).1 = false ∧
    (ConsumablesService.loadOfferingsStart
       (ConsumablesService.loadOfferingsComplete
         (ConsumablesService.loadOfferingsStart s).1 (Except.ok { all := [] })).1).2.2 = 1 ∧
    ConsumablesService.hasLoadedOfferings
      (ConsumablesService.loadOfferingsComplete
        (ConsumablesService.loadOfferingsStart s).1
        (Except.ok { all := (k, off) :: rest })).1 = true ∧
    (ConsumablesService.loadOfferingsStart
       (ConsumablesService.loadOfferingsComplete
         (ConsumablesService.loadOfferingsStart s).1
         (Except.ok { all := (k, off) :: rest })).1).2.2 = 0 := by
  have hs1 : (ConsumablesService.loadOfferingsStart s).1 =
      { s with loadOfferingsPromise := some s.nextPromiseId,
               nextPromiseId := s.nextPromiseId + 1 } := by
    simp [ConsumablesService.loadOfferingsStart, hc, hp]
  have hdone1 :
      (ConsumablesService.loadOfferingsComplete
        (ConsumablesService.loadOfferingsStart s).1
        (Except.ok { all := [] })).1.offeringsCache = [] := by
    simp [ConsumablesService.loadOfferingsComplete, hs1, hc]
  have hdonep :
      (ConsumablesService.loadOfferingsComplete
        (ConsumablesService.loadOfferingsStart s).1
        (Except.ok { all := [] })).1.loadOfferingsPromise = none := by
    simp [ConsumablesService.loadOfferingsComplete]
  have hnonempty :
      (ConsumablesService.loadOfferingsComplete
        (ConsumablesService.loadOfferingsStart s).1
        (Except.ok { all := (k, off) :: rest })).1.offeringsCache ≠ [] := by
    simp only [ConsumablesService.loadOfferingsComplete, List.foldl_cons]
    exact foldl_mapSet_ne_nil _ _ (mapSet_ne_nil _ _ _)
  have hlen : 0 <
      (ConsumablesService.loadOfferingsComplete
        (ConsumablesService.loadOfferingsStart s).1
        (Except.ok { all := (k, off) :: rest })).1.offeringsCache.length :=
    List.length_pos.mpr hnonempty
  refine ⟨rfl, hdone1, ?_, ?_, ?_, ?_⟩
  · simp [ConsumablesService.hasLoadedOfferings, hdone1]
  · rw [ConsumablesService.loadOfferingsStart, hdone1, hdonep]
    simp
  · simpa [ConsumablesService.hasLoadedOfferings] using hlen
  · rw [ConsumablesService.loadOfferingsStart]
    simp [hlen]

/-- Witness for C10: a fresh service, an empty catalog result, and the
one-offering catalog of the tests. -/
theorem emptyOfferings_not_cached_witness :
    (ConsumablesService.new.offeringsCache = [] ∧
     ConsumablesService.new.loadOfferingsPromise = none) ∧
    ((ConsumablesService.loadOfferingsComplete
        (ConsumablesService.loadOfferingsStart ConsumablesService.new).1
        (Except.ok { all := [] })).2 = Except.ok () ∧
     (ConsumablesService.loadOfferingsComplete
        (ConsumablesService.loadOfferingsStart ConsumablesService.new).1
        (Except.ok { all := [] })).1.offeringsCache = [] ∧
     ConsumablesService.hasLoadedOfferings
       (ConsumablesService.loadOfferingsComplete
         (ConsumablesService.loadOfferingsStart ConsumablesService.new).1
         (Except.ok { all := [] })).1 = false ∧
     (ConsumablesService.loadOfferingsStart
        (ConsumablesService.loadOfferingsComplete
          (ConsumablesService.loadOfferingsStart ConsumablesService.new).1
          (Except.ok { all := [] })).1).2.2 = 1 ∧
     ConsumablesService.hasLoadedOfferings
       (ConsumablesService.loadOfferingsComplete
         (ConsumablesService.loadOfferingsStart ConsumablesService.new).1
         (Except.ok { all := [("default",
           { identifier := "default", metadata := none, packages := [] })] })).1 = true ∧
     (ConsumablesService.loadOfferingsStart
        (ConsumablesService.loadOfferingsComplete
          (ConsumablesService.loadOfferingsStart ConsumablesService.new).1
          (Except.ok { all := [("default",
            { identifier := "default", metadata := none, packages := [] })] })).1).2.2 = 0) :=
  ⟨⟨rfl, rfl⟩,
   emptyOfferings_not_cached ConsumablesService.new "default"
     { identifier := "default", metadata := none, packages := [] } [] rfl rfl⟩
